import Mathlib

/-!
Shallow embedding of `datamodel_code_generator/__main__.py`: the configuration
resolution pipeline of the datamodel-code-generator command-line interface.
The embedding covers the exit-code enumeration and SIGINT handler, the
per-option precedence merge performed through the typer option defaults, the
pydantic field and root validators (path, url, file-resource and header-list
coercion, the generic-container/target-version rule and the
use_annotated/field_constraints rule), the resource-reading blocks of `main`
(extra template data with defaultdict semantics, alias mapping with its shape
check) and the mapping of every outcome of `main` to an exit code.

String manipulation is modelled over `List Char` so that every definition
evaluates inside the kernel; `String.mk`/`String.data` convert at the
boundaries.
-/

namespace DCG

/-- Models Python exceptions of class `Error` (imported at line 36 of
`__main__.py`) as raised by the validators: the carried payload is the
human-readable message. -/
structure Error where
  message : String
deriving DecidableEq

/-- Models `class Exit(IntEnum)` (lines 53-58): the exit reasons `OK`, `ERROR`
and `KeyboardInterrupt`. -/
inductive Exit where
  | OK
  | ERROR
  | KeyboardInterrupt
deriving DecidableEq

/-- Integer value of each `Exit` member: `OK = 0`, `ERROR = 1`,
`KeyboardInterrupt = 2`. -/
def Exit.val : Exit → Nat
  | .OK => 0
  | .ERROR => 1
  | .KeyboardInterrupt => 2

/-- Models `sig_int_handler` (lines 61-62), installed for SIGINT at line 65: the
handler ignores its signal-number argument and its frame argument (hence any
pipeline state the frame describes) and terminates via `exit(Exit.OK)`. -/
def sig_int_handler {α : Type} (_signum : Int) (_frame : α) : Exit :=
  Exit.OK

/-- Models `dict.get(key, default)` as used in `pyproject.get(name, builtin)` in
every `typer.Option` declaration of `main` (lines 155-317): the project-file
value when the key is present, otherwise the built-in default. -/
def pyprojectGet {α : Type} (pp : List (String × α)) (k : String) (dflt : α) : α :=
  match List.lookup k pp with
  | some v => v
  | none => dflt

/-- Models the per-option resolution performed by the command surface: typer
binds the command-line value when one is supplied, otherwise the declared
parameter default, which `main` sets to `pyproject.get(name, builtin)`
(lines 155-317). -/
def typerResolve {α : Type} (cli : Option α) (pp : List (String × α))
    (k : String) (dflt : α) : α :=
  match cli with
  | some v => v
  | none => pyprojectGet pp k dflt

/-- Models `k.replace('-', '_')` applied to project-file keys (line 145); both
patterns are single characters, so the replacement is a character map. -/
def normalizeKey (s : String) : String :=
  ⟨s.data.map (fun c => if c = '-' then '_' else c)⟩

/-- Models the dict comprehension of lines 144-150 building `pyproject` from the
`[tool.datamodel-codegen]` section: every key is normalized before merging. -/
def load_pyproject {α : Type} (sect : List (String × α)) : List (String × α) :=
  sect.map (fun kv => (normalizeKey kv.1, kv.2))

/-- Filesystem environment abstracting the `pathlib` calls the coercion
validators make: `Path(value).expanduser().resolve()` and
`Path(value).expanduser().resolve().open("rt")`. The idempotence results hold
for every such environment. -/
structure FsEnv where
  expandResolve : String → String
  openText : String → Nat

/-- Runtime value of a path-kind option as seen by `validate_path`: Python
`None`, an already-constructed `pathlib.Path` (identified by its rendered
string), or a raw string. -/
inductive PathValue where
  | none
  | path (p : String)
  | str (s : String)
deriving DecidableEq

/-- Models the validator `validate_path` (lines 82-86): `None` and `Path` values
pass through unchanged; a raw string is expanded and resolved to a `Path`. -/
def validate_path (env : FsEnv) : PathValue → PathValue
  | .none => .none
  | .path p => .path p
  | .str s => .path (env.expandResolve s)

/-- Runtime value of a file-resource option (`aliases`, `extra_template_data`) as
seen by `validate_file`: Python `None`, an already-open `TextIOBase` stream
(identified by its handle), or a raw path string. -/
inductive FileValue where
  | none
  | stream (handle : Nat)
  | str (s : String)
deriving DecidableEq

/-- Models the validator `validate_file` (lines 76-80): `None` and `TextIOBase`
values pass through unchanged; a raw path string is resolved and opened for
reading, producing an open stream. -/
def validate_file (env : FsEnv) : FileValue → FileValue
  | .none => .none
  | .stream h => .stream h
  | .str s => .stream (env.openText s)

/-- Decides whether the character list `p` is an initial segment of `s`. -/
def listStartsWith : List Char → List Char → Bool
  | _, [] => true
  | [], _ :: _ => false
  | c :: cs, p :: ps => c = p && listStartsWith cs ps

/-- Modelled from the spec: `is_url` lives in `datamodel_code_generator.reference`
(imported at line 49), which is not under `src/`; per the spec it is the
well-formed-URL-with-recognized-scheme test accepting http/https only. -/
def is_url (s : String) : Bool :=
  listStartsWith s.data "http://".data || listStartsWith s.data "https://".data

/-- Breaks a character list at the first colon, returning the parts before and
after it, or `none` when no colon occurs. -/
def breakAtColon : List Char → Option (List Char × List Char)
  | [] => Option.none
  | c :: cs =>
    if c = ':' then some ([], cs)
    else match breakAtColon cs with
      | some (a, b) => some (c :: a, b)
      | Option.none => Option.none

/-- Result of `urllib.parse.urlparse` as far as this program observes it: the
scheme and the remainder of the URL. -/
structure ParseResult where
  scheme : String
  rest : String
deriving DecidableEq

/-- Models the standard-library `urlparse` (imported at line 27) at the
granularity this program uses: split at the first colon into scheme and
remainder, dropping a leading `//` of the remainder. -/
def urlparse (s : String) : ParseResult :=
  match breakAtColon s.data with
  | some (scheme, rest) =>
    { scheme := ⟨scheme⟩,
      rest := ⟨match rest with
               | '/' :: '/' :: r => r
               | r => r⟩ }
  | Option.none => { scheme := "", rest := s }

/-- Runtime value of the url-kind option as seen by `validate_url`: Python
`None`, a raw string, or an already-parsed `ParseResult`. -/
inductive UrlValue where
  | none
  | str (s : String)
  | parsed (r : ParseResult)
deriving DecidableEq

/-- Renders a `UrlValue` the way the f-string of line 95 would interpolate it;
for a `ParseResult` this models its Python repr. -/
def UrlValue.display : UrlValue → String
  | .none => "None"
  | .str s => s
  | .parsed r => "ParseResult(scheme=" ++ r.scheme ++ ", rest=" ++ r.rest ++ ")"

/-- Models the validator `validate_url` (lines 88-96): a string satisfying
`is_url` is parsed; `None` passes through; every other value, including a string
that is not an http/https URL and an already-parsed `ParseResult`, raises
`Error`. There is no pass-through arm for `ParseResult`. -/
def validate_url : UrlValue → Except Error UrlValue
  | .str s =>
    if is_url s then .ok (.parsed (urlparse s))
    else .error ⟨"This protocol doesn\x27t support only http/https. --input=" ++ s⟩
  | .none => .ok .none
  | .parsed r =>
    .error ⟨"This protocol doesn\x27t support only http/https. --input=" ++
      (UrlValue.parsed r).display⟩

/-- Decides membership in Python's `str` whitespace class for the characters
`str.lstrip()` removes (ASCII range). -/
def isPyWhitespace (c : Char) : Bool :=
  c = ' ' || c = '\t' || c = '\n' || c = '\r' || c = '\x0b' || c = '\x0c'

/-- Models `str.lstrip()` with no argument: drop leading whitespace. -/
def pyLstrip (s : String) : String :=
  ⟨s.data.dropWhile isPyWhitespace⟩

/-- Models Python `repr` of a string as interpolated by `{each_item!r}` at line
122, for strings containing no quotes or escape-worthy characters. -/
def pyRepr (s : String) : String :=
  "\x27" ++ s ++ "\x27"

/-- Models `each_item.split(':', maxsplit=1)` followed by unpacking into two
names (lines 117-119): the parts around the first colon, or `none` when the
string has no colon and the unpacking raises `ValueError`. -/
def splitFirstColon (s : String) : Option (String × String) :=
  match breakAtColon s.data with
  | some (a, b) => some (⟨a⟩, ⟨b⟩)
  | Option.none => Option.none

/-- Entry of the raw `http_headers` list as seen by `validate_each_item`: a raw
string or an already-coerced name/value pair. -/
inductive HeaderItem where
  | str (s : String)
  | pair (p : String × String)
deriving DecidableEq

/-- Runtime value of the `http_headers` option as seen by
`validate_http_headers`: Python `None` or a list of entries. A non-list value
passes through unchanged (line 127). -/
inductive HeadersValue where
  | none
  | list (items : List HeaderItem)
deriving DecidableEq

/-- Models `validate_each_item` (lines 114-123): a string entry is split at its
first colon into the header name and the left-stripped value; an entry without
a colon raises `Error` naming the entry; a non-string entry passes through. -/
def validate_each_item : HeaderItem → Except Error (String × String)
  | .str s =>
    match splitFirstColon s with
    | some (n, v) => .ok (n, pyLstrip v)
    | Option.none => .error ⟨"Invalid http header: " ++ pyRepr s⟩
  | .pair p => .ok p

/-- Fail-fast traversal modelling a Python list comprehension whose element
expression may raise: the first exception aborts the whole list. -/
def mapExcept {α β ε : Type} (f : α → Except ε β) : List α → Except ε (List β)
  | [] => .ok []
  | x :: xs =>
    match f x with
    | .error e => .error e
    | .ok y =>
      match mapExcept f xs with
      | .error e => .error e
      | .ok ys => .ok (y :: ys)

/-- Models the validator `validate_http_headers` (lines 112-127): a list value is
mapped through `validate_each_item` (fail-fast), every other value passes
through unchanged. -/
def validate_http_headers : HeadersValue → Except Error HeadersValue
  | .list items =>
    (mapExcept validate_each_item items).map (fun ps => .list (ps.map .pair))
  | v => .ok v

/-- Coerced form of one header entry: the name before the first colon and the
left-stripped value after it. Only meaningful on entries containing a colon. -/
def headerCoerce (s : String) : String × String :=
  match splitFirstColon s with
  | some (n, v) => (n, pyLstrip v)
  | Option.none => ("", "")

/-- Error raised for a header entry without a colon (line 122). -/
def invalidHeaderError (s : String) : Error :=
  ⟨"Invalid http header: " ++ pyRepr s⟩

/-- Models the `PythonVersion` enumeration from `datamodel_code_generator.format`
(imported at line 44; the module itself is outside `src/`): the supported
target versions, with `PY_36` the oldest. -/
inductive PythonVersion where
  | PY_36
  | PY_37
  | PY_38
  | PY_39
  | PY_310
deriving DecidableEq

/-- Version string of each `PythonVersion` member, as interpolated into error
messages. -/
def pythonVersionValue : PythonVersion → String
  | .PY_36 => "3.6"
  | .PY_37 => "3.7"
  | .PY_38 => "3.8"
  | .PY_39 => "3.9"
  | .PY_310 => "3.10"

/-- Fields of the `Config` model (lines 70-137) that the root validators and the
branches of `main` observe. Resource fields hold the stream handle produced by
`validate_file`, or `none`. -/
structure Config where
  target_python_version : PythonVersion
  use_generic_container_types : Bool
  use_annotated : Bool
  field_constraints : Bool
  extra_template_data : Option Nat
  aliases : Option Nat
  debug : Bool
deriving DecidableEq

/-- Models the root validator `validate_use_generic_container_types` (lines
98-109): raises `Error` when `use_generic_container_types` is set and the
target version equals `PY_36`; otherwise returns the values unchanged. -/
def validate_use_generic_container_types (values : Config) : Except Error Config :=
  if values.use_generic_container_types then
    if values.target_python_version = PythonVersion.PY_36 then
      .error ⟨"`--use-generic-container-types` can not be used with `--target-python_version` 3.6.\n The version will be not supported in a future version"⟩
    else
      .ok values
  else
    .ok values

/-- Models `_validate_use_annotated` (lines 133-137): when `use_annotated` is
set, force `field_constraints` to `True`; otherwise leave the values
unchanged. -/
def _validate_use_annotated (values : Config) : Config :=
  if values.use_annotated then { values with field_constraints := true } else values

/-- Models the root validator `validate_root` (lines 129-131), which delegates to
`_validate_use_annotated`. -/
def validate_root (values : Config) : Config :=
  _validate_use_annotated values

/-- Models construction of a validated `Config` from the merged option values
(`Config.parse_obj`, line 328): pydantic runs the declared root validators in
order, and an `Error` raised by either aborts construction with no resolved
configuration. -/
def Config.parse (values : Config) : Except Error Config :=
  (validate_use_generic_container_types values).map validate_root

/-- JSON documents as produced by `json.load`. Object keys are strings by
construction, matching the output of the Python parser. -/
inductive JsonValue where
  | null
  | bool (b : Bool)
  | num (n : Int)
  | str (s : String)
  | arr (xs : List JsonValue)
  | obj (fields : List (String × JsonValue))

/-- Decides whether a JSON value is a string. -/
def JsonValue.isStr : JsonValue → Bool
  | .str _ => true
  | _ => false

/-- Models the alias shape check of lines 368-370: the parsed document must be a
dict and every value a string (keys are strings by construction of
`json.load`). -/
def aliasShapeOk : JsonValue → Bool
  | .obj fields => fields.all (fun kv => kv.2.isStr)
  | _ => false

/-- Models the observable behavior of the mapping produced by
`json.load(data, object_hook=lambda d: defaultdict(dict, **d))` (lines
352-354): looking up a present key yields its parsed value; looking up an
absent key default-constructs an empty object instead of failing. -/
def defaultdictLookup (fields : List (String × JsonValue)) (k : String) : JsonValue :=
  match List.lookup k fields with
  | some v => v
  | Option.none => JsonValue.obj []

/-- Extracts the top-level mapping from a parsed extra-template-data resource:
the document must be a JSON object for the mapping view to exist. -/
def parseExtraTemplateData : JsonValue → Option (List (String × JsonValue))
  | .obj fields => some fields
  | _ => Option.none

/-- Count of currently open resource streams; models the handles opened via
`validate_file` and released by the `with` blocks of `main`. -/
structure StreamState where
  openHandles : Nat
deriving DecidableEq

/-- Acquires one stream handle. -/
def openStream (st : StreamState) : StreamState :=
  ⟨st.openHandles + 1⟩

/-- Releases one stream handle. -/
def closeStream (st : StreamState) : StreamState :=
  ⟨st.openHandles - 1⟩

/-- Models a `with stream as data: body` block (lines 350-357 and 362-367): the
stream is held open while the body runs and `__exit__` releases it both on the
normal path and on the exception path, before the result propagates. -/
def withStream {α : Type} (st : StreamState) (body : Except String α) :
    Except String α × StreamState :=
  let stOpen := openStream st
  match body with
  | .ok a => (.ok a, closeStream stOpen)
  | .error e => (.error e, closeStream stOpen)

/-- Tags the distinct diagnostics `main` prints to stderr, one constructor per
`print(..., file=sys.stderr)` site. -/
inductive ErrMsg where
  | configError (message : String)
  | blackUnsupported (version blackVersion : String)
  | unableToLoadExtra (e : String)
  | unableToLoadAlias (e : String)
  | aliasShape
  | invalidClassName (e : String)
  | genError (e : String)
  | traceback (e : String)
deriving DecidableEq

/-- Renders the literal stderr text of each diagnostic, following the strings of
`main` (the braces of the alias-shape message of lines 371-374 are written
escaped). -/
def ErrMsg.text : ErrMsg → String
  | .configError m => m
  | .blackUnsupported v bv =>
    "Installed black doesn\x27t support Python version " ++ v ++
      ".\nYou have to install a newer black.\nInstalled black version: " ++ bv
  | .unableToLoadExtra e => "Unable to load extra template data: " ++ e
  | .unableToLoadAlias e => "Unable to load alias mapping: " ++ e
  | .aliasShape => "Alias mapping must be a JSON string mapping (e.g. \x7b\"from\": \"to\", ...\x7d)"
  | .invalidClassName e => e ++ " You have to set `--class-name` option"
  | .genError e => e
  | .traceback e => e

/-- Outcome of the call to the external `generate` engine (lines 378-417): it
returns normally or raises one of the exception classes `main` catches at
lines 419-429. -/
inductive GenOutcome where
  | ok
  | invalidClassName (msg : String)
  | errorRaised (msg : String)
  | otherException (msg : String)
deriving DecidableEq

/-- Environment of the externals `main` consults: the installed black's support
predicate (`is_supported_in_black`, outside `src/`), its version string, the
`json.load` outcome for each resource stream, and the generate outcome. -/
structure MainEnv where
  blackSupported : PythonVersion → Bool
  blackVersion : String
  extraData : Except String JsonValue
  aliasData : Except String JsonValue
  genResult : GenOutcome

/-- Result of an invocation of `main`: the process terminated through
`exit(code)` (the version path, line 325) or `main` returned an `Exit`
member. -/
inductive MainResult where
  | exited (code : Nat)
  | returned (e : Exit)
deriving DecidableEq

/-- Observable outcome of `main`: its result, the final stream state, whether the
generation engine was invoked, and the diagnostics printed to stderr. -/
structure MainOutcome where
  result : MainResult
  finalState : StreamState
  generateCalled : Bool
  stderr : List ErrMsg

/-- Models lines 377-429: the `try: generate(...)` block and its three `except`
arms. A normal return maps to `Exit.OK`; `InvalidClassNameError`, `Error` and
any other exception each print their diagnostic and map to `Exit.ERROR`. -/
def runGenerate (env : MainEnv) (st : StreamState) (stderr : List ErrMsg) : MainOutcome :=
  match env.genResult with
  | .ok => ⟨.returned Exit.OK, st, true, stderr⟩
  | .invalidClassName m => ⟨.returned Exit.ERROR, st, true, stderr ++ [.invalidClassName m]⟩
  | .errorRaised m => ⟨.returned Exit.ERROR, st, true, stderr ++ [.genError m]⟩
  | .otherException m => ⟨.returned Exit.ERROR, st, true, stderr ++ [.traceback m]⟩

/-- Models lines 359-375: when `config.aliases` holds a stream, read it inside a
`with` block; a JSON decode failure prints its diagnostic and returns
`Exit.ERROR`; a parsed document failing the string-to-string shape check prints
the distinct alias-shape diagnostic and returns `Exit.ERROR`; only when every
check passes is `generate` reached. -/
def loadAliasesStep (config : Config) (env : MainEnv) (st : StreamState)
    (stderr : List ErrMsg) : MainOutcome :=
  match config.aliases with
  | Option.none => runGenerate env st stderr
  | some _ =>
    match withStream st env.aliasData with
    | (.error e, st1) => ⟨.returned Exit.ERROR, st1, false, stderr ++ [.unableToLoadAlias e]⟩
    | (.ok j, st1) =>
      if aliasShapeOk j then runGenerate env st1 stderr
      else ⟨.returned Exit.ERROR, st1, false, stderr ++ [.aliasShape]⟩

/-- Models lines 346-357: when `config.extra_template_data` holds a stream, read
it inside a `with` block using the defaultdict object hook; a JSON decode
failure prints its diagnostic and returns `Exit.ERROR`, otherwise control
continues to the aliases block. -/
def loadExtraStep (config : Config) (env : MainEnv) (st : StreamState) : MainOutcome :=
  match config.extra_template_data with
  | Option.none => loadAliasesStep config env st []
  | some _ =>
    match withStream st env.extraData with
    | (.error e, st1) => ⟨.returned Exit.ERROR, st1, false, [.unableToLoadExtra e]⟩
    | (.ok _, st1) => loadAliasesStep config env st1 []

/-- Models `main` (lines 318-429): the version short-circuit through `exit(0)`,
configuration construction with `except Error` mapping to `Exit.ERROR` (lines
327-332), the black support check (lines 334-341), the two resource blocks and
the hand-off to `generate`. -/
def main (version : Bool) (raw : Config) (env : MainEnv) (st : StreamState) : MainOutcome :=
  if version then
    ⟨.exited 0, st, false, []⟩
  else
    match Config.parse raw with
    | .error e => ⟨.returned Exit.ERROR, st, false, [.configError e.message]⟩
    | .ok config =>
      if env.blackSupported config.target_python_version then
        loadExtraStep config env st
      else
        ⟨.returned Exit.ERROR, st, false,
          [.blackUnsupported (pythonVersionValue config.target_python_version) env.blackVersion]⟩

/-- Configuration holding every built-in default the branches of `main`
observe: target version 3.7, every toggle off, no resource streams. -/
def defaultConfig : Config :=
  { target_python_version := .PY_37
    use_generic_container_types := false
    use_annotated := false
    field_constraints := false
    extra_template_data := Option.none
    aliases := Option.none
    debug := false }

/-- Environment in which every external collaborator succeeds. -/
def okEnv : MainEnv :=
  { blackSupported := fun _ => true
    blackVersion := "22.3.0"
    extraData := .ok (.obj [])
    aliasData := .ok (.obj [])
    genResult := .ok }

/-- Configuration enabling `use_generic_container_types` with target version
3.6. -/
def py36GenericConfig : Config :=
  { defaultConfig with
    use_generic_container_types := true
    target_python_version := .PY_36 }

/-- Configuration whose aliases option holds an open resource stream. -/
def aliasConfig : Config :=
  { defaultConfig with aliases := some 1 }

/-- Environment whose alias resource parses to the JSON object mapping "a" to
the number 1, the non-string-valued example document. -/
def badAliasEnv : MainEnv :=
  { okEnv with aliasData := .ok (.obj [("a", .num 1)]) }

theorem parse_ok_eq {raw resolved : Config} (h : Config.parse raw = .ok resolved) :
    resolved = validate_root raw := by
  unfold Config.parse at h
  cases hval : validate_use_generic_container_types raw with
  | error e =>
    rw [hval] at h
    exact absurd h (by simp [Except.map])
  | ok values =>
    rw [hval] at h
    have hv : values = raw := by
      unfold validate_use_generic_container_types at hval
      split at hval
      · split at hval
        · exact absurd hval (by simp)
        · exact (Except.ok.inj hval).symm
      · exact (Except.ok.inj hval).symm
    simp only [Except.map, Except.ok.injEq] at h
    rw [hv] at h
    exact h.symm

/-- C1: for every option and every combination of absent /
present-in-project-file / present-on-command-line sources, the resolved value
of the option equals the command-line value if one was supplied, otherwise the
project-file value if the key is present, otherwise the built-in default. -/
theorem option_precedence {α : Type} (pp : List (String × α)) (k : String) (dflt : α) :
    (∀ v, typerResolve (some v) pp k dflt = v) ∧
    (∀ w, List.lookup k pp = some w → typerResolve Option.none pp k dflt = w) ∧
    (List.lookup k pp = Option.none → typerResolve Option.none pp k dflt = dflt) := by
  refine ⟨fun v => rfl, fun w hw => ?_, fun h => ?_⟩ <;>
    simp [typerResolve, pyprojectGet, *]

/-- C1 witness: concrete instances of the precedence rule for the
`field_constraints` option, with the project-file mapping loaded through the
key normalization of `load_pyproject`. -/
theorem option_precedence_witness :
    typerResolve (some false) (load_pyproject [("field-constraints", true)])
      "field_constraints" false = false ∧
    typerResolve Option.none (load_pyproject [("field-constraints", true)])
      "field_constraints" false = true ∧
    typerResolve (Option.none : Option Bool) (load_pyproject [("field-constraints", true)])
      "use_annotated" false = false :=
  ⟨(option_precedence _ _ _).1 false,
   (option_precedence _ _ _).2.1 true (by decide),
   (option_precedence _ _ _).2.2 (by decide)⟩

/-- C3: whenever configuration construction succeeds, an enabled `use_annotated`
forces `field_constraints = true` in the resolved configuration even when it
was supplied as false, and a disabled `use_annotated` leaves
`field_constraints` at its supplied value. -/
theorem use_annotated_forces_field_constraints (raw resolved : Config)
    (h : Config.parse raw = .ok resolved) :
    (raw.use_annotated = true → resolved.field_constraints = true) ∧
    (raw.use_annotated = false → resolved.field_constraints = raw.field_constraints) := by
  have hres := parse_ok_eq h
  subst hres
  unfold validate_root _validate_use_annotated
  refine ⟨fun ha => ?_, fun ha => ?_⟩ <;> simp [ha]

/-- C3 witness: with `use_annotated` enabled and `field_constraints` supplied as
false, the resolved configuration has `field_constraints = true`. -/
theorem use_annotated_witness :
    ({ defaultConfig with use_annotated := true, field_constraints := true } : Config).field_constraints = true :=
  (use_annotated_forces_field_constraints
      { defaultConfig with use_annotated := true }
      { defaultConfig with use_annotated := true, field_constraints := true }
      (by rfl)).1 (by rfl)

/-- C4: enabling `use_generic_container_types` with target version 3.6 makes
configuration construction fail with a validation `Error` (no resolved
configuration), and the invocation returns `Exit.ERROR`, whose value is 1,
without ever invoking the generation engine. -/
theorem generic_container_py36_rejected (raw : Config) (env : MainEnv) (st : StreamState)
    (h1 : raw.use_generic_container_types = true)
    (h2 : raw.target_python_version = PythonVersion.PY_36) :
    (∃ e, Config.parse raw = .error e) ∧
    (main false raw env st).result = .returned Exit.ERROR ∧
    Exit.val Exit.ERROR = 1 ∧
    (main false raw env st).generateCalled = false := by
  have hval : ∃ e, validate_use_generic_container_types raw = .error e := by
    unfold validate_use_generic_container_types
    rw [h1, h2]
    simp
  obtain ⟨e, he⟩ := hval
  have hparse : Config.parse raw = .error e := by
    unfold Config.parse
    rw [he]
    rfl
  refine ⟨⟨e, hparse⟩, ?_, rfl, ?_⟩ <;> simp [main, hparse]

/-- C4 witness: the rejection at the concrete configuration enabling
`use_generic_container_types` with target version 3.6. -/
theorem generic_container_py36_witness :
    (∃ e, Config.parse py36GenericConfig = .error e) ∧
    (main false py36GenericConfig okEnv ⟨0⟩).result = .returned Exit.ERROR ∧
    Exit.val Exit.ERROR = 1 ∧
    (main false py36GenericConfig okEnv ⟨0⟩).generateCalled = false :=
  generic_container_py36_rejected py36GenericConfig okEnv ⟨0⟩ (by rfl) (by rfl)

/-- C7: the installed interrupt handler exits with `Exit.OK`, whose value is 0,
regardless of its signal-number argument and of the state value carried by its
frame argument. -/
theorem sig_int_handler_always_ok (α : Type) (signum : Int) (frame : α) :
    sig_int_handler signum frame = Exit.OK ∧ Exit.val Exit.OK = 0 :=
  ⟨rfl, rfl⟩

/-- C8: the mapping parsed from a well-formed extra-template-data resource
default-constructs an empty object for any key absent from the JSON object and
maps every present key to its parsed value. -/
theorem extra_template_data_default_lookup (j : JsonValue)
    (fields : List (String × JsonValue)) (k : String)
    (_hj : parseExtraTemplateData j = some fields) :
    (List.lookup k fields = Option.none → defaultdictLookup fields k = JsonValue.obj []) ∧
    (∀ v, List.lookup k fields = some v → defaultdictLookup fields k = v) := by
  refine ⟨fun h => ?_, fun v h => ?_⟩ <;> simp [defaultdictLookup, h]

/-- C8 witness: lookups in the mapping parsed from a one-key template-data
object, for an absent key and for the present key. -/
theorem extra_template_data_witness :
    defaultdictLookup [("Model", JsonValue.obj [("key", JsonValue.str "value")])]
      "Missing" = JsonValue.obj [] ∧
    defaultdictLookup [("Model", JsonValue.obj [("key", JsonValue.str "value")])]
      "Model" = JsonValue.obj [("key", JsonValue.str "value")] :=
  ⟨(extra_template_data_default_lookup
      (.obj [("Model", .obj [("key", .str "value")])]) _ "Missing" rfl).1 (by rfl),
   (extra_template_data_default_lookup
      (.obj [("Model", .obj [("key", .str "value")])]) _ "Model" rfl).2 _ (by rfl)⟩

theorem mapExcept_pairs (ps : List (String × String)) :
    mapExcept validate_each_item (ps.map HeaderItem.pair) = .ok ps := by
  induction ps with
  | nil => rfl
  | cons p ps ih => simp [mapExcept, validate_each_item, ih]

/-- C2 counterexample: coercion is not idempotent for the url kind. Coercing the
string "http://example.com" succeeds and yields a parsed value, but coercing
that already-typed value again raises `Error` instead of returning it
unchanged, so the second coercion differs from the first. -/
theorem url_coercion_not_idempotent :
    (validate_url (UrlValue.str "http://example.com")).bind validate_url ≠
      validate_url (UrlValue.str "http://example.com") := by
  have h1 : validate_url (UrlValue.str "http://example.com") =
      .ok (UrlValue.parsed ⟨"http", "example.com"⟩) := by rfl
  have h2 : (validate_url (UrlValue.str "http://example.com")).bind validate_url =
      .error ⟨"This protocol doesn\x27t support only http/https. --input=ParseResult(scheme=http, rest=example.com)"⟩ := by rfl
  rw [h2, h1]
  exact fun hc => Except.noConfusion hc

/-- C2 amended: coercion is idempotent for the path, file-resource and
header-list kinds — re-coercing an already-typed value returns it unchanged,
for every filesystem environment — but not for the url kind: `validate_url`
accepts only strings and `None`, so it raises `Error` on every already-parsed
value instead of passing it through. -/
theorem coercion_idempotent_amended :
    (∀ (env : FsEnv) (v : PathValue),
      validate_path env (validate_path env v) = validate_path env v) ∧
    (∀ (env : FsEnv) (v : FileValue),
      validate_file env (validate_file env v) = validate_file env v) ∧
    (∀ v : HeadersValue,
      (validate_http_headers v).bind validate_http_headers = validate_http_headers v) ∧
    (∀ r : ParseResult, ∃ e, validate_url (UrlValue.parsed r) = .error e) := by
  refine ⟨fun env v => ?_, fun env v => ?_, fun v => ?_, fun r => ⟨_, rfl⟩⟩
  · cases v <;> rfl
  · cases v <;> rfl
  · cases v with
    | none => rfl
    | list items =>
      cases h : mapExcept validate_each_item items with
      | error e => simp [validate_http_headers, h, Except.map, Except.bind]
      | ok ps =>
        simp [validate_http_headers, h, Except.map, Except.bind, mapExcept_pairs]

theorem mapExcept_headers_ok (items : List String)
    (h : ∀ s ∈ items, (splitFirstColon s).isSome) :
    mapExcept validate_each_item (items.map HeaderItem.str) =
      .ok (items.map headerCoerce) := by
  induction items with
  | nil => rfl
  | cons x xs ih =>
    obtain ⟨⟨n, v⟩, hnv⟩ := Option.isSome_iff_exists.mp (h x (by simp))
    have hxs := ih (fun s hs => h s (by simp [hs]))
    simp [mapExcept, validate_each_item, headerCoerce, hnv, hxs]

theorem mapExcept_headers_error (items : List String)
    (h : ∃ s ∈ items, splitFirstColon s = Option.none) :
    ∃ t, t ∈ items ∧ splitFirstColon t = Option.none ∧
      mapExcept validate_each_item (items.map HeaderItem.str) =
        .error (invalidHeaderError t) := by
  induction items with
  | nil =>
    obtain ⟨s, hs, _⟩ := h
    exact absurd hs (by simp)
  | cons x xs ih =>
    cases hx : splitFirstColon x with
    | none =>
      exact ⟨x, by simp, hx,
        by simp [mapExcept, validate_each_item, hx, invalidHeaderError]⟩
    | some p =>
      obtain ⟨s, hs, hsplit⟩ := h
      have hsxs : s ∈ xs := by
        rcases List.mem_cons.mp hs with h1 | h1
        · subst h1
          rw [hx] at hsplit
          exact absurd hsplit (by simp)
        · exact h1
      obtain ⟨t, ht, htn, hmap⟩ := ih ⟨s, hsxs, hsplit⟩
      obtain ⟨n, v⟩ := p
      exact ⟨t, by simp [ht], htn,
        by simp [mapExcept, validate_each_item, hx, hmap]⟩

/-- C5: coercing a list of header strings maps every entry containing a colon to
the pair of the text before the first colon and the left-stripped text after
it; whenever some entry has no colon, coercion fails with the error naming an
entry without a colon from the list. -/
theorem http_headers_coercion (items : List String) :
    ((∀ s ∈ items, (splitFirstColon s).isSome) →
      validate_http_headers (.list (items.map .str)) =
        .ok (.list ((items.map headerCoerce).map .pair))) ∧
    ((∃ s ∈ items, splitFirstColon s = Option.none) →
      ∃ t, t ∈ items ∧ splitFirstColon t = Option.none ∧
        validate_http_headers (.list (items.map .str)) = .error (invalidHeaderError t)) := by
  constructor
  · intro h
    simp [validate_http_headers, mapExcept_headers_ok items h, Except.map]
  · intro h
    obtain ⟨t, ht, htn, hmap⟩ := mapExcept_headers_error items h
    exact ⟨t, ht, htn, by simp [validate_http_headers, hmap, Except.map]⟩

/-- C5 witness: the header entry "Authorization: Basic xyz" coerces to the pair
("Authorization", "Basic xyz"), and the list containing the colon-free entry
"malformed" fails with the error naming it. -/
theorem http_headers_witness :
    validate_http_headers (.list [HeaderItem.str "Authorization: Basic xyz"]) =
      .ok (.list [HeaderItem.pair ("Authorization", "Basic xyz")]) ∧
    ∃ t, t ∈ ["malformed"] ∧ splitFirstColon t = Option.none ∧
      validate_http_headers (.list [HeaderItem.str "malformed"]) =
        .error (invalidHeaderError t) := by
  constructor
  · exact ((http_headers_coercion ["Authorization: Basic xyz"]).1 (by decide)).trans (by rfl)
  · exact (http_headers_coercion ["malformed"]).2 ⟨"malformed", by simp, by decide⟩

theorem withStream_eq {α : Type} (st : StreamState) (body : Except String α) :
    withStream st body = (body, ⟨st.openHandles⟩) := by
  cases body <;> simp [withStream, openStream, closeStream]

theorem withStream_handles {α : Type} (st : StreamState) (body : Except String α) :
    (withStream st body).2.openHandles = st.openHandles := by
  rw [withStream_eq]

theorem runGenerate_state (env : MainEnv) (st : StreamState) (stderr : List ErrMsg) :
    (runGenerate env st stderr).finalState = st := by
  cases hg : env.genResult <;> simp [runGenerate, hg]

theorem loadAliasesStep_handles (config : Config) (env : MainEnv) (st : StreamState)
    (stderr : List ErrMsg) :
    (loadAliasesStep config env st stderr).finalState.openHandles = st.openHandles := by
  unfold loadAliasesStep
  cases hca : config.aliases with
  | none => rw [runGenerate_state]
  | some d =>
    rw [withStream_eq]
    cases env.aliasData with
    | error e => rfl
    | ok j => cases hj : aliasShapeOk j <;> simp [hj, runGenerate_state]

theorem loadExtraStep_handles (config : Config) (env : MainEnv) (st : StreamState) :
    (loadExtraStep config env st).finalState.openHandles = st.openHandles := by
  unfold loadExtraStep
  cases hce : config.extra_template_data with
  | none => rw [loadAliasesStep_handles]
  | some d =>
    rw [withStream_eq]
    cases env.extraData with
    | error e => rfl
    | ok j => rw [loadAliasesStep_handles]

theorem main_handles (version : Bool) (raw : Config) (env : MainEnv) (st : StreamState) :
    (main version raw env st).finalState.openHandles = st.openHandles := by
  unfold main
  cases version with
  | false =>
    cases hp : Config.parse raw with
    | error e => rfl
    | ok config =>
      cases hb : env.blackSupported config.target_python_version <;>
        simp [hb, loadExtraStep_handles]
  | true => rfl

/-- C9: a resource stream read inside a `with` block is released on every exit
path — the open-handle count returns to its initial value whether the JSON body
parses or fails, while the body's outcome passes through unchanged — and a full
run of `main` leaves no resource handle open on any path. -/
theorem resource_streams_released (st : StreamState) (body : Except String JsonValue)
    (version : Bool) (raw : Config) (env : MainEnv) :
    (withStream st body).2.openHandles = st.openHandles ∧
    (withStream st body).1 = body ∧
    (main version raw env st).finalState.openHandles = st.openHandles :=
  ⟨withStream_handles st body, by rw [withStream_eq], main_handles version raw env st⟩

/-- C6: once an alias resource parses as JSON, a document that is not a flat
string-to-string object makes `main` print the alias-shape diagnostic — a
diagnostic distinct from the JSON-decode one — return `Exit.ERROR` and never
invoke the generation engine, while a flat string-to-string object passes the
shape check and the generation engine is invoked. -/
theorem alias_shape_check (raw config : Config) (env : MainEnv) (st : StreamState)
    (j : JsonValue)
    (hparse : Config.parse raw = .ok config)
    (hblack : env.blackSupported config.target_python_version = true)
    (hextra : config.extra_template_data = Option.none)
    (halias : config.aliases.isSome)
    (hdata : env.aliasData = .ok j) :
    (aliasShapeOk j = false →
      (main false raw env st).result = .returned Exit.ERROR ∧
      (main false raw env st).generateCalled = false ∧
      (main false raw env st).stderr = [ErrMsg.aliasShape] ∧
      ∀ e, ErrMsg.aliasShape ≠ ErrMsg.unableToLoadAlias e) ∧
    (aliasShapeOk j = true → (main false raw env st).generateCalled = true) ∧
    (∀ kvs : List (String × String),
      aliasShapeOk (.obj (kvs.map (fun kv => (kv.1, .str kv.2)))) = true) := by
  obtain ⟨d, hd⟩ := Option.isSome_iff_exists.mp halias
  have hmain : main false raw env st = loadAliasesStep config env st [] := by
    unfold main loadExtraStep
    simp [hparse, hblack, hextra]
  have hstep : loadAliasesStep config env st [] =
      if aliasShapeOk j then runGenerate env ⟨st.openHandles⟩ []
      else ⟨.returned Exit.ERROR, ⟨st.openHandles⟩, false, [.aliasShape]⟩ := by
    unfold loadAliasesStep
    simp only [hd, withStream_eq, hdata, List.nil_append]
  refine ⟨fun hshape => ?_, fun hshape => ?_, fun kvs => ?_⟩
  · rw [hmain, hstep]
    simp [hshape]
  · rw [hmain, hstep]
    simp only [hshape, if_true]
    cases hg : env.genResult <;> simp [runGenerate, hg]
  · induction kvs with
    | nil => rfl
    | cons kv kvs ih => simpa [aliasShapeOk, JsonValue.isStr] using ih

/-- C6 witness: with the alias resource parsing to the object mapping "a" to the
number 1, `main` returns `Exit.ERROR`, never calls the generation engine, and
prints the alias-shape diagnostic, which differs from every JSON-decode
diagnostic. -/
theorem alias_shape_witness :
    (main false aliasConfig badAliasEnv ⟨0⟩).result = .returned Exit.ERROR ∧
    (main false aliasConfig badAliasEnv ⟨0⟩).generateCalled = false ∧
    (main false aliasConfig badAliasEnv ⟨0⟩).stderr = [ErrMsg.aliasShape] ∧
    ∀ e, ErrMsg.aliasShape ≠ ErrMsg.unableToLoadAlias e :=
  (alias_shape_check aliasConfig aliasConfig badAliasEnv ⟨0⟩ (.obj [("a", .num 1)])
      (by rfl) (by rfl) (by rfl) (by rfl) (by rfl)).1 (by rfl)

theorem runGenerate_result (env : MainEnv) (st : StreamState) (stderr : List ErrMsg) :
    (runGenerate env st stderr).result = .returned Exit.OK ∨
    (runGenerate env st stderr).result = .returned Exit.ERROR := by
  cases hg : env.genResult <;> simp [runGenerate, hg]

theorem loadAliasesStep_result (config : Config) (env : MainEnv) (st : StreamState)
    (stderr : List ErrMsg) :
    (loadAliasesStep config env st stderr).result = .returned Exit.OK ∨
    (loadAliasesStep config env st stderr).result = .returned Exit.ERROR := by
  unfold loadAliasesStep
  cases hca : config.aliases with
  | none => exact runGenerate_result env st stderr
  | some d =>
    rw [withStream_eq]
    cases env.aliasData with
    | error e => exact Or.inr rfl
    | ok j =>
      cases hj : aliasShapeOk j with
      | false => simp [hj]
      | true => simpa [hj] using runGenerate_result env ⟨st.openHandles⟩ stderr

theorem loadExtraStep_result (config : Config) (env : MainEnv) (st : StreamState) :
    (loadExtraStep config env st).result = .returned Exit.OK ∨
    (loadExtraStep config env st).result = .returned Exit.ERROR := by
  unfold loadExtraStep
  cases hce : config.extra_template_data with
  | none => exact loadAliasesStep_result config env st []
  | some d =>
    rw [withStream_eq]
    cases env.extraData with
    | error e => exact Or.inr rfl
    | ok j => exact loadAliasesStep_result config env ⟨st.openHandles⟩ []

theorem main_result (version : Bool) (raw : Config) (env : MainEnv) (st : StreamState) :
    (main version raw env st).result = .exited 0 ∨
    (main version raw env st).result = .returned Exit.OK ∨
    (main version raw env st).result = .returned Exit.ERROR := by
  unfold main
  cases version with
  | false =>
    cases hp : Config.parse raw with
    | error e => exact Or.inr (Or.inr rfl)
    | ok config =>
      cases hb : env.blackSupported config.target_python_version with
      | false => simp [hb]
      | true =>
        simp only [hb, if_true]
        rcases loadExtraStep_result config env st with h | h
        · exact Or.inr (Or.inl h)
        · exact Or.inr (Or.inr h)
  | true => exact Or.inl rfl

/-- C10: every exit code `main` returns is `Exit.OK` or `Exit.ERROR`; the `Exit`
type also declares `KeyboardInterrupt` with value 2, but no execution path of
`main` returns it. -/
theorem main_exit_codes (version : Bool) (raw : Config) (env : MainEnv) (st : StreamState) :
    Exit.val Exit.KeyboardInterrupt = 2 ∧
    ∀ e, (main version raw env st).result = .returned e →
      e = Exit.OK ∨ e = Exit.ERROR := by
  refine ⟨rfl, fun e he => ?_⟩
  rcases main_result version raw env st with h | h | h
  · rw [he] at h
    exact MainResult.noConfusion h
  · rw [he] at h
    exact Or.inl (MainResult.returned.inj h)
  · rw [he] at h
    exact Or.inr (MainResult.returned.inj h)

/-- C10 witness: on the all-defaults invocation `main` returns `Exit.OK`, which
the theorem classifies among the two returned codes, and `KeyboardInterrupt`
has value 2. -/
theorem main_exit_codes_witness :
    Exit.val Exit.KeyboardInterrupt = 2 ∧ (Exit.OK = Exit.OK ∨ Exit.OK = Exit.ERROR) :=
  ⟨(main_exit_codes false defaultConfig okEnv ⟨0⟩).1,
   (main_exit_codes false defaultConfig okEnv ⟨0⟩).2 Exit.OK (by rfl)⟩

end DCG
